import Mathlib

/-!
# dcp argument handling (`src/handle_args.c`)

A shallow embedding of the planning front-end of `dcp`:

* `DCOPY_param_set` — builds the record kept for every path argument;
* `DCOPY_enqueue_work_objects` — checks the sources, types the destination
  and hands one `TREEWALK` operation per source to the work queue;
* `DCOPY_bcast_str` — the length-then-payload broadcast of a string from
  rank 0 to every rank.

A C `char` is a `Char`, a C string is the list of its characters (without the
terminating NUL), a `char*` that may be `NULL` is an `Option`.
-/

set_option autoImplicit false

namespace Dcp

/-! ## C library and system interface -/

/-- C string: the characters before the terminating NUL. -/
abbrev cstring := List Char

/-- The `strlen` of a C string. -/
def strlen (s : cstring) : Nat := s.length

/-- The conversion `(uint16_t)n` of a `size_t`. -/
def to_uint16 (n : Nat) : Nat := n % 65536

/-- The conversion `(int)n` of a `size_t` (two's complement, 32 bits). -/
def to_int (n : Nat) : Int := ((n + 2147483648) % 4294967296 : Nat) - 2147483648

/-- The value of `EXIT_FAILURE`. -/
def EXIT_FAILURE : Nat := 1

/-- The part of `struct stat64` the program reads. -/
structure stat64 where
  st_mode : Nat
  deriving DecidableEq, Repr

/-- File type mask of `st_mode` (`S_IFMT`, Linux). -/
def S_IFMT : Nat := 0o170000
/-- Directory type bits. -/
def S_IFDIR : Nat := 0o040000
/-- Regular file type bits. -/
def S_IFREG : Nat := 0o100000
/-- Symbolic link type bits. -/
def S_IFLNK : Nat := 0o120000
/-- Character device type bits (one of the types dcp does not support). -/
def S_IFCHR : Nat := 0o020000

/-- The macro `S_ISDIR`. -/
def S_ISDIR (m : Nat) : Bool := (m &&& S_IFMT) == S_IFDIR
/-- The macro `S_ISREG`. -/
def S_ISREG (m : Nat) : Bool := (m &&& S_IFMT) == S_IFREG
/-- The macro `S_ISLNK`. -/
def S_ISLNK (m : Nat) : Bool := (m &&& S_IFMT) == S_IFLNK

/-- What the program asks of the file system: the working directory, `lstat64`
(`none` when the call fails), `realpath` (`none` when it returns `NULL`) and
`access(path, R_OK) == 0`. -/
structure filesystem where
  cwd : cstring
  lstat64 : cstring → Option stat64
  realpath : cstring → Option cstring
  access_R_OK : cstring → Bool

/-! ## Path library (`bayer_path`) -/

/-- Modelled from the spec: the `bayer_path` object of libbayer (`bayer.h`, not
under `src/`), a path held as its components, the texts between separators. -/
structure bayer_path where
  components : List cstring
  deriving DecidableEq, Repr

/-- Modelled from the spec: part of `bayer_path_from_str` (libbayer, not under
`src/`): cuts a string at every `/`; the pieces may be empty. -/
def split_slash : cstring → List cstring
  | [] => [[]]
  | c :: cs =>
    if c = '/' then [] :: split_slash cs
    else
      match split_slash cs with
      | [] => [[c]]
      | w :: ws => (c :: w) :: ws

/-- Modelled from the spec: `bayer_path_from_str` (libbayer, not under `src/`)
reads a string as a path. -/
def bayer_path_from_str (s : cstring) : bayer_path := ⟨split_slash s⟩

/-- Modelled from the spec: `bayer_path_is_absolute` (libbayer, not under
`src/`): the path starts at the root, "if `path` is relative, prepend the
current working directory". -/
def bayer_path_is_absolute (p : bayer_path) : Bool :=
  match p.components with
  | [] :: _ :: _ => true
  | _ => false

/-- Modelled from the spec: `bayer_path_prepend_str` (libbayer, not under
`src/`) puts the components of a string in front of the path. -/
def bayer_path_prepend_str (p : bayer_path) (s : cstring) : bayer_path :=
  ⟨split_slash s ++ p.components⟩

/-- Modelled from the spec: one step of `bayer_path_reduce` (libbayer, not
under `src/`): `acc` holds the components kept so far, last one first; an
empty component and `.` are dropped, `..` removes the component before it. -/
def reduce_step (acc : List cstring) (c : cstring) : List cstring :=
  if c = [] ∨ c = ['.'] then acc
  else if c = ['.', '.'] then acc.tail
  else c :: acc

/-- Modelled from the spec: `bayer_path_reduce` (libbayer, not under `src/`):
"collapse `.`, `..`, and redundant separators purely lexically"; the result is
the root marker followed by the components that remain. -/
def bayer_path_reduce (p : bayer_path) : bayer_path :=
  ⟨[] :: (p.components.foldl reduce_step []).reverse⟩

/-- Modelled from the spec: `bayer_path_basename` (libbayer, not under `src/`)
keeps "the final path component (basename)". -/
def bayer_path_basename (p : bayer_path) : bayer_path :=
  match p.components.getLast? with
  | some c => ⟨[c]⟩
  | none => ⟨[]⟩

/-- Modelled from the spec: part of `bayer_path_strdup` (libbayer, not under
`src/`): joins components with `/`. -/
def join_slash : List cstring → cstring
  | [] => []
  | [c] => c
  | c :: cs => c ++ '/' :: join_slash cs

/-- Modelled from the spec: `bayer_path_strdup` (libbayer, not under `src/`)
gives the path as a string; the root alone is `/`. -/
def bayer_path_strdup (p : bayer_path) : cstring :=
  if p.components = [[]] then ['/'] else join_slash p.components

/-! ## Path arguments (`param_file_t`, `DCOPY_param_set`) -/

/-- The record `param_file_t` of a path argument that is not `NULL` (the
arguments come from `argv`): `orig` and `path` are then always set, `target`
is `NULL` (`none`) when `realpath` fails. The two stat buffers hold the result
of `lstat64` when the matching flag is set. -/
structure param_file_t where
  orig : cstring
  path : cstring
  path_stat_valid : Bool
  path_stat : stat64
  target : Option cstring
  target_stat_valid : Bool
  target_stat : stat64
  deriving DecidableEq, Repr

/-- Content of a stat buffer that no call has filled in. -/
def stat_unset : stat64 := ⟨0⟩

/-- The reduced path of `DCOPY_param_set`: absolute, without `.`, `..`,
consecutive or trailing `/`, symlinks kept. -/
def reduced_path (fs : filesystem) (path : cstring) : cstring :=
  let p := bayer_path_from_str path
  let p := if !bayer_path_is_absolute p then bayer_path_prepend_str p fs.cwd else p
  bayer_path_strdup (bayer_path_reduce p)

/-- The function `DCOPY_param_set` for a path that is not `NULL`. -/
def DCOPY_param_set (fs : filesystem) (path : cstring) : param_file_t :=
  let rpath := reduced_path fs path
  let pst := fs.lstat64 rpath
  match fs.realpath path with
  | some target =>
    let tst := fs.lstat64 target
    { orig := path, path := rpath,
      path_stat_valid := pst.isSome, path_stat := pst.getD stat_unset,
      target := some target,
      target_stat_valid := tst.isSome, target_stat := tst.getD stat_unset }
  | none =>
    { orig := path, path := rpath,
      path_stat_valid := pst.isSome, path_stat := pst.getD stat_unset,
      target := none,
      target_stat_valid := false, target_stat := stat_unset }

/-! ## Seeding the work queue (`DCOPY_enqueue_work_objects`) -/

/-- Operation codes of the work queue that this file uses. -/
inductive DCOPY_operation_code_t
  | TREEWALK
  deriving DecidableEq, Repr

/-- Modelled from the spec: `DCOPY_encode_operation` (declared in `dcp.h`, not
under `src/`) "serializes a seed task (operation kind, traversal depth, source
path, optional destination-relative basename fragment)". The record holds the
arguments of one call `DCOPY_encode_operation(code, depth, src_path, src_len,
src_path_basename, 0)` whose result goes to `handle->enqueue`: the enqueued
item is known by the arguments it is encoded from. A `NULL` basename is
`none`. That the encoder can fail in a call is modelled apart, by
`encode_too_large` and `enqueue_with_encoder`. -/
structure operation where
  code : DCOPY_operation_code_t
  depth : Int
  src_path : cstring
  src_len : Nat
  src_path_basename : Option cstring
  last : Int
  deriving DecidableEq, Repr

/-- The messages this file logs, one constructor per `LOG` call. -/
inductive log_msg
  /-- Error: "Could not read `orig'." -/
  | could_not_read (orig : cstring)
  /-- Error: "At least one valid source must be specified." -/
  | no_valid_source
  /-- Error: "Unsupported filetype `orig' --> `target'." -/
  | unsupported_filetype_target (orig : cstring) (target : Option cstring)
  /-- Error: "Unsupported filetype `orig'." -/
  | unsupported_filetype (orig : cstring)
  /-- Error: "Destination is not a directory 'orig'." -/
  | not_a_directory (orig : cstring)
  /-- Debug: "Infered that the destination is a directory." -/
  | infered_directory
  /-- Debug: "Infered that the destination is a file." -/
  | infered_file
  /-- Debug: "Enqueueing source path `path'." -/
  | enqueueing_source (path : cstring)
  /-- Debug: "Enqueueing single source path `path'." -/
  | enqueueing_single_source (path : cstring)
  deriving DecidableEq, Repr

/-- How a run of `DCOPY_enqueue_work_objects` ends. -/
inductive ending
  /-- The function returns to libcircle. -/
  | returned
  /-- A call `DCOPY_abort(status)`. -/
  | aborted (status : Nat)
  /-- A read of `src_params[0]` with no source at all. -/
  | invalid_read
  deriving DecidableEq, Repr

/-- What a run of `DCOPY_enqueue_work_objects` does: the messages logged, the
operations handed to `handle->enqueue`, both in program order, and how it
ends. -/
structure run where
  log : List log_msg
  enqueued : List operation
  ending : ending
  deriving DecidableEq, Repr

/-- Modelled from the spec: `DCOPY_abort` (declared in `dcp.h`, not under
`src/`): "any fatal condition triggers an immediate whole-job abort", so the
run ends there with what was logged and enqueued so far. -/
def DCOPY_abort (log : List log_msg) (enqueued : List operation) (status : Nat) : run :=
  ⟨log, enqueued, ending.aborted status⟩

/-- The first loop of `DCOPY_enqueue_work_objects`: counts the sources that
`access(path, R_OK)` accepts and logs the others. -/
def count_readable (fs : filesystem) :
    List param_file_t → Nat × List log_msg → Nat × List log_msg
  | [], st => st
  | s :: rest, (num_readable, log) =>
    if fs.access_R_OK s.path then count_readable fs rest (num_readable + 1, log)
    else count_readable fs rest (num_readable, log ++ [log_msg.could_not_read s.orig])

/-- The flags `DCOPY_enqueue_work_objects` sets while it types the
destination. -/
structure dest_flags where
  dest_exists : Bool
  dest_is_dir : Bool
  dest_is_file : Bool
  dest_is_link_to_dir : Bool
  dest_is_link_to_file : Bool
  deriving DecidableEq, Repr

/-- The block "check whether dest exists and if so determine its type": the
flags, or the message logged right before `DCOPY_abort`. -/
def check_dest (dest_param : param_file_t) : Except log_msg dest_flags :=
  let none_set : dest_flags := ⟨false, false, false, false, false⟩
  if dest_param.path_stat_valid then
    let f := { none_set with dest_exists := true }
    if S_ISDIR dest_param.path_stat.st_mode then
      .ok { f with dest_is_dir := true }
    else if S_ISREG dest_param.path_stat.st_mode then
      .ok { f with dest_is_file := true }
    else if S_ISLNK dest_param.path_stat.st_mode then
      if dest_param.target_stat_valid then
        if S_ISDIR dest_param.target_stat.st_mode then
          .ok { f with dest_is_link_to_dir := true }
        else if S_ISREG dest_param.target_stat.st_mode then
          .ok { f with dest_is_link_to_file := true }
        else
          .error (log_msg.unsupported_filetype_target dest_param.orig dest_param.target)
      else
        .ok f
    else
      .error (log_msg.unsupported_filetype dest_param.orig)
  else
    .ok none_set

/-- The operation enqueued for a source copied into a directory. -/
def operation_into_dir (s : param_file_t) : operation :=
  let src_path := s.path
  let p := bayer_path_basename (bayer_path_from_str src_path)
  let src_path_basename := bayer_path_strdup p
  let src_len := to_uint16 (strlen src_path)
  ⟨.TREEWALK, 0, src_path, src_len, some src_path_basename, 0⟩

/-- The operation enqueued for the single source copied to a file. -/
def operation_to_file (s : param_file_t) : operation :=
  let src_path := s.path
  let src_len := to_uint16 (strlen src_path)
  ⟨.TREEWALK, 0, src_path, src_len, none, 0⟩

/-- The loop "enqueue each source param" of `DCOPY_enqueue_work_objects`: for
every source, in order, one debug message and one operation handed to
`handle->enqueue`. -/
def enqueue_each :
    List param_file_t → List log_msg × List operation → List log_msg × List operation
  | [], st => st
  | s :: rest, (log, enqueued) =>
    enqueue_each rest
      (log ++ [log_msg.enqueueing_source s.path], enqueued ++ [operation_into_dir s])

/-- The function `DCOPY_enqueue_work_objects`, run on rank 0 with the global
`dest_param` and `src_params` (`num_src_params` is the length of the list). -/
def DCOPY_enqueue_work_objects (fs : filesystem) (dest_param : param_file_t)
    (src_params : List param_file_t) : run :=
  let num_src_params := src_params.length
  let (num_readable, log) := count_readable fs src_params (0, [])
  if num_readable < 1 then
    DCOPY_abort (log ++ [log_msg.no_valid_source]) [] EXIT_FAILURE
  else
    match check_dest dest_param with
    | .error msg => DCOPY_abort (log ++ [msg]) [] EXIT_FAILURE
    | .ok f =>
      let dest_required_to_be_dir : Bool := decide (num_src_params > 1)
      if dest_required_to_be_dir &&
          (!f.dest_exists || (!f.dest_is_dir && !f.dest_is_link_to_dir)) then
        DCOPY_abort (log ++ [log_msg.not_a_directory dest_param.orig]) [] EXIT_FAILURE
      else if dest_required_to_be_dir || f.dest_is_dir || f.dest_is_link_to_dir then
        let (log, enqueued) := enqueue_each src_params (log ++ [log_msg.infered_directory], [])
        { log := log, enqueued := enqueued, ending := ending.returned }
      else
        match src_params with
        | [] => ⟨log ++ [log_msg.infered_file], [], ending.invalid_read⟩
        | s :: _ =>
          { log := log ++ [log_msg.infered_file, log_msg.enqueueing_single_source s.path],
            enqueued := [operation_to_file s],
            ending := ending.returned }

/-- What rank 0 does with the path arguments, at least one source and the
destination: `DCOPY_parse_dest_path` and `DCOPY_parse_src_paths` fill
`dest_param` and `src_params` with `DCOPY_param_set`, then libcircle calls
`DCOPY_enqueue_work_objects`. -/
def seed (fs : filesystem) (sources : List cstring) (dest : cstring) : run :=
  DCOPY_enqueue_work_objects fs (DCOPY_param_set fs dest) (sources.map (DCOPY_param_set fs))

/-! ## Broadcast of a string (`DCOPY_bcast_str`) -/

/-- The NUL character. -/
def NUL : Char := Char.ofNat 0

/-- The largest `int`. -/
def INT_MAX : Nat := 2147483647

/-- The bytes `strncpy(dst, src, n)` writes to `dst`: the first `n` characters
of `src`, then NULs up to `n` bytes. -/
def strncpy (src : cstring) (n : Nat) : List Char :=
  src.take n ++ List.replicate (n - strlen src) NUL

/-- What is outside the code in one rank's call of `DCOPY_bcast_str`: whether
`recv` is `NULL`, and whether the two `MPI_Bcast` calls and `malloc`
succeed. -/
structure rank_env where
  recv_is_null : Bool
  bcast_len_ok : Bool
  malloc_ok : Bool
  bcast_str_ok : Bool
  deriving DecidableEq, Repr

/-- A buffer of `char`: its bytes, or memory fresh from `malloc` of which only
the size is known. -/
inductive buffer
  /-- The buffer holds these bytes. -/
  | bytes (content : List Char)
  /-- The buffer has this size and was never written. -/
  | uninitialized (size : Nat)
  deriving DecidableEq, Repr

/-- The pointer `*recv` after a call. -/
inductive recv_value
  /-- The call did not assign it. -/
  | untouched
  /-- The value `NULL`. -/
  | null
  /-- A buffer from `malloc`. -/
  | allocated (buf : buffer)
  deriving DecidableEq, Repr

/-- How one rank's call of `DCOPY_bcast_str` ends. -/
inductive bcast_outcome
  /-- The call returns `result`, with `*recv` as given. -/
  | returned (result : Bool) (recv : recv_value)
  /-- The rank waits in the first `MPI_Bcast`, for a length rank 0 never
  sends. -/
  | waits_for_length
  /-- The rank waits in the second `MPI_Bcast`, for bytes rank 0 never
  sends. -/
  | waits_for_string
  /-- Rank 0 reads `send` although it is `NULL`. -/
  | invalid_read
  deriving DecidableEq, Repr

/-- One rank's call: how it ends, and what it put into the two broadcasts
(`none` when it did not enter them). -/
structure bcast_call where
  outcome : bcast_outcome
  sent_len : Option Int
  sent_str : Option buffer
  deriving DecidableEq, Repr

/-- The call `MPI_Bcast(buf, ..., 0, MPI_COMM_WORLD)` as one rank sees it, when
the call itself succeeds: rank 0 keeps its own value; another rank gets the
value rank 0 entered the matching broadcast with, and waits (`none`) when
rank 0 never enters it. -/
def MPI_Bcast {α : Type} (CIRCLE_global_rank : Nat) (own : α) (from_root : Option α) :
    Option α :=
  if CIRCLE_global_rank = 0 then some own else from_root

/-- The function `DCOPY_bcast_str` on one rank. `root_len` and `root_str` are
what rank 0 entered the two broadcasts with; `CIRCLE_MAX_STRING_LEN` is the
libcircle constant. -/
def DCOPY_bcast_str_rank (CIRCLE_MAX_STRING_LEN : Int) (CIRCLE_global_rank : Nat)
    (send : Option cstring) (e : rank_env)
    (root_len : Option Int) (root_str : Option buffer) : bcast_call :=
  if e.recv_is_null then ⟨.returned false .untouched, none, none⟩
  else
    -- the block under `CIRCLE_global_rank == 0`: `none` is its `return false`
    let checked : Option Int :=
      if CIRCLE_global_rank = 0 then
        match send with
        | some s =>
          let len := to_int (strlen s + 1)
          if len > CIRCLE_MAX_STRING_LEN then none else some len
        | none => some 0
      else some 0
    match checked with
    | none => ⟨.returned false .untouched, none, none⟩
    | some len =>
      if !e.bcast_len_ok then ⟨.returned false .untouched, some len, none⟩
      else
        match MPI_Bcast CIRCLE_global_rank len root_len with
        | none => ⟨.waits_for_length, some len, none⟩
        | some len =>
          if len > 0 then
            if !e.malloc_ok then ⟨.returned false .null, some len, none⟩
            else
              let filled : Option buffer :=
                if CIRCLE_global_rank = 0 then
                  match send with
                  | some s => some (.bytes (strncpy s len.toNat))
                  | none => none
                else some (.uninitialized len.toNat)
              match filled with
              | none => ⟨.invalid_read, some len, none⟩
              | some buf =>
                if !e.bcast_str_ok then ⟨.returned false (.allocated buf), some len, some buf⟩
                else
                  match MPI_Bcast CIRCLE_global_rank buf root_str with
                  | none => ⟨.waits_for_string, some len, some buf⟩
                  | some buf => ⟨.returned true (.allocated buf), some len, some buf⟩
          else ⟨.returned true .null, some len, none⟩

/-- The collective call of `DCOPY_bcast_str`: every rank `r` calls it with its
own `send r` and environment `env r`; the result is how the call ends on
`rank`. -/
def DCOPY_bcast_str (CIRCLE_MAX_STRING_LEN : Int) (send : Nat → Option cstring)
    (env : Nat → rank_env) (rank : Nat) : bcast_outcome :=
  let root := DCOPY_bcast_str_rank CIRCLE_MAX_STRING_LEN 0 (send 0) (env 0) none none
  (DCOPY_bcast_str_rank CIRCLE_MAX_STRING_LEN rank (send rank) (env rank)
    root.sent_len root.sent_str).outcome


/-! ## Vocabulary of the specification -/

/-- The kinds of file system object the specification tells apart. -/
inductive file_kind
  | Directory
  | RegularFile
  | Symlink
  | Other
  deriving DecidableEq, Repr

/-- The kind a file mode stands for, tested the way the program tests it. -/
def kind_of_mode (m : Nat) : file_kind :=
  if S_ISDIR m then .Directory
  else if S_ISREG m then .RegularFile
  else if S_ISLNK m then .Symlink
  else .Other

/-- Kind of the reduced path (`none`: the stat failed, nothing is there). -/
def canonical_path_kind (p : param_file_t) : Option file_kind :=
  if p.path_stat_valid then some (kind_of_mode p.path_stat.st_mode) else none

/-- Kind of the resolved target (`none`: there is no valid stat of a target). -/
def resolved_target_kind (p : param_file_t) : Option file_kind :=
  if p.target_stat_valid then some (kind_of_mode p.target_stat.st_mode) else none

/-- The kind that decides between file and directory: that of the target for a
symlink, that of the path otherwise. -/
def effective_kind (p : param_file_t) : Option file_kind :=
  if canonical_path_kind p = some .Symlink then resolved_target_kind p
  else canonical_path_kind p

/-- Dangling symlink: the stat of the path is valid and says symlink, there is
no valid stat of a target. -/
def dangling_symlink (p : param_file_t) : Bool :=
  p.path_stat_valid && S_ISLNK p.path_stat.st_mode && !p.target_stat_valid

/-- Destination of a supported kind that is not dangling: absent, a directory,
a regular file, or a symlink whose target is a directory or a regular file. -/
def supported_dest (p : param_file_t) : Bool :=
  canonical_path_kind p = none ||
  canonical_path_kind p = some .Directory ||
  canonical_path_kind p = some .RegularFile ||
  (canonical_path_kind p = some .Symlink &&
    (resolved_target_kind p = some .Directory || resolved_target_kind p = some .RegularFile))

/-- The sources that pass the probe `access(path, R_OK) == 0`, in order. -/
def readable_sources (fs : filesystem) (src_params : List param_file_t) : List param_file_t :=
  src_params.filter (fun s => fs.access_R_OK s.path)

/-- The messages of the first loop: one for every source that fails the probe,
in order. -/
def unreadable_log (fs : filesystem) (src_params : List param_file_t) : List log_msg :=
  (src_params.filter (fun s => !fs.access_R_OK s.path)).map
    (fun s => log_msg.could_not_read s.orig)

/-! ## The encoder -/

/-- Stat of a regular file. -/
def reg_stat : stat64 := ⟨S_IFREG + 0o644⟩
/-- Stat of a directory. -/
def dir_stat : stat64 := ⟨S_IFDIR + 0o755⟩
/-- Stat of a symlink. -/
def lnk_stat : stat64 := ⟨S_IFLNK + 0o777⟩
/-- Stat of a character device. -/
def chr_stat : stat64 := ⟨S_IFCHR + 0o600⟩

/-- The value a table gives for a path, `none` for a path it does not list. -/
def table_lookup {β : Type} (p : cstring) : List (cstring × β) → Option β
  | [] => none
  | (k, v) :: rest => if p = k then some v else table_lookup p rest

/-- The objects of a small tree: files `/a/b.txt`, `/e.txt` and `/a/secret`,
directories `/a`, `/a/c` and `/d`, the symlinks `/ld`, `/lf`, `/lnull` and
`/dangling`, the device `/dev/null`. -/
def example_stats : List (cstring × stat64) :=
  [("/a/b.txt".toList, reg_stat), ("/e.txt".toList, reg_stat), ("/a/secret".toList, reg_stat),
   ("/a".toList, dir_stat), ("/a/c".toList, dir_stat), ("/d".toList, dir_stat),
   ("/ld".toList, lnk_stat), ("/lf".toList, lnk_stat), ("/lnull".toList, lnk_stat),
   ("/dangling".toList, lnk_stat), ("/dev/null".toList, chr_stat)]

/-- What `realpath` resolves in the small tree: `/ld` points to `/d`, `/lf` to
`/e.txt`, `/lnull` to `/dev/null`, and `/dangling` to nothing. -/
def example_targets : List (cstring × cstring) :=
  [("/a/b.txt".toList, "/a/b.txt".toList), ("b.txt".toList, "/a/b.txt".toList),
   ("/a/c/".toList, "/a/c".toList), ("/a/secret".toList, "/a/secret".toList),
   ("/e.txt".toList, "/e.txt".toList), ("/lf".toList, "/e.txt".toList),
   ("/d/".toList, "/d".toList), ("/d".toList, "/d".toList), ("/ld".toList, "/d".toList),
   ("/dev/null".toList, "/dev/null".toList), ("/lnull".toList, "/dev/null".toList)]

/-- The paths `access(path, R_OK)` accepts in the small tree (`/a/secret` is
not among them). -/
def example_readable : List (cstring × Unit) :=
  [("/a/b.txt".toList, ()), ("/a/c".toList, ())]

/-- The small tree as a file system, with `/a` as working directory. -/
def example_fs : filesystem where
  cwd := "/a".toList
  lstat64 := fun p => table_lookup p example_stats
  realpath := fun p => table_lookup p example_targets
  access_R_OK := fun p => (table_lookup p example_readable).isSome

/-- An environment in which every rank passes a valid `recv` and every call of
`MPI_Bcast` and `malloc` succeeds. -/
def all_ok : Nat → rank_env := fun _ => ⟨false, true, true, true⟩

/-- The argument `send` of a call as `DCOPY_parse_dest_path` makes it: rank 0
passes `s`, the other ranks pass a buffer they did not fill. -/
def send_from_root (s : Option cstring) : Nat → Option cstring :=
  fun rank => if rank = 0 then s else some "junk".toList

/-- The libcircle constant `CIRCLE_MAX_STRING_LEN` (`libcircle.h`). -/
def CIRCLE_MAX_STRING_LEN : Int := 4096

/-- A string of 4096 characters. -/
def string_4096 : cstring := List.replicate 4096 'a'

/-- The length rank 0 computes before the first broadcast: `(int)(strlen(send)
+ 1)`, or 0 for `NULL`. -/
def root_length (send : Option cstring) : Int :=
  match send with
  | some s => to_int (strlen s + 1)
  | none => 0


/-! ## Auxiliary facts -/

theorem S_ISLNK_not_dir (m : Nat) (h : S_ISLNK m = true) : S_ISDIR m = false := by
  simp only [S_ISLNK, S_ISDIR, beq_iff_eq] at *
  rw [h]; decide

theorem S_ISLNK_not_reg (m : Nat) (h : S_ISLNK m = true) : S_ISREG m = false := by
  simp only [S_ISLNK, S_ISREG, beq_iff_eq] at *
  rw [h]; decide

theorem count_readable_eq (fs : filesystem) (l : List param_file_t) (n : Nat)
    (lg : List log_msg) :
    count_readable fs l (n, lg)
      = (n + (readable_sources fs l).length, lg ++ unreadable_log fs l) := by
  induction l generalizing n lg with
  | nil => simp [count_readable, readable_sources, unreadable_log]
  | cons s rest ih =>
    by_cases h : fs.access_R_OK s.path = true
    · simp [count_readable, h, ih, readable_sources, unreadable_log]; omega
    · simp [count_readable, h, ih, readable_sources, unreadable_log]

theorem enqueue_each_eq (l : List param_file_t) (lg : List log_msg) (q : List operation) :
    enqueue_each l (lg, q)
      = (lg ++ l.map (fun s => log_msg.enqueueing_source s.path),
         q ++ l.map operation_into_dir) := by
  induction l generalizing lg q with
  | nil => simp [enqueue_each]
  | cons s rest ih => simp [enqueue_each, ih]

theorem enqueue_eq (fs : filesystem) (dest_param : param_file_t)
    (src_params : List param_file_t) :
    DCOPY_enqueue_work_objects fs dest_param src_params =
      if (readable_sources fs src_params).length < 1 then
        DCOPY_abort (unreadable_log fs src_params ++ [log_msg.no_valid_source]) [] EXIT_FAILURE
      else
        match check_dest dest_param with
        | .error msg => DCOPY_abort (unreadable_log fs src_params ++ [msg]) [] EXIT_FAILURE
        | .ok f =>
          if decide (src_params.length > 1) &&
              (!f.dest_exists || (!f.dest_is_dir && !f.dest_is_link_to_dir)) then
            DCOPY_abort (unreadable_log fs src_params ++ [log_msg.not_a_directory dest_param.orig])
              [] EXIT_FAILURE
          else if decide (src_params.length > 1) || f.dest_is_dir || f.dest_is_link_to_dir then
            { log := unreadable_log fs src_params ++ log_msg.infered_directory ::
                src_params.map (fun s => log_msg.enqueueing_source s.path),
              enqueued := src_params.map operation_into_dir,
              ending := ending.returned }
          else
            match src_params with
            | [] =>
              ⟨unreadable_log fs src_params ++ [log_msg.infered_file], [], ending.invalid_read⟩
            | s :: _ =>
              { log := unreadable_log fs src_params ++
                  [log_msg.infered_file, log_msg.enqueueing_single_source s.path],
                enqueued := [operation_to_file s],
                ending := ending.returned } := by
  unfold DCOPY_enqueue_work_objects
  rw [count_readable_eq]
  simp [enqueue_each_eq]

theorem readable_length_pos (fs : filesystem) (src_params : List param_file_t)
    (h : ∃ s ∈ src_params, fs.access_R_OK s.path = true) :
    ¬ (readable_sources fs src_params).length < 1 := by
  obtain ⟨s, hs, ha⟩ := h
  have : s ∈ readable_sources fs src_params := by
    simp [readable_sources, List.mem_filter, hs, ha]
  have := List.length_pos_of_mem this
  omega

theorem unreadable_log_of_all (fs : filesystem) (src_params : List param_file_t)
    (h : ∀ s ∈ src_params, fs.access_R_OK s.path = true) :
    unreadable_log fs src_params = [] := by
  simp only [unreadable_log, List.map_eq_nil_iff, List.filter_eq_nil_iff]
  intro s hs
  simp [h s hs]

theorem unreadable_log_of_none (fs : filesystem) (src_params : List param_file_t)
    (h : ∀ s ∈ src_params, fs.access_R_OK s.path = false) :
    unreadable_log fs src_params = src_params.map (fun s => log_msg.could_not_read s.orig) := by
  unfold unreadable_log
  congr 1
  rw [List.filter_eq_self]
  intro s hs
  simp [h s hs]

theorem readable_sources_of_none (fs : filesystem) (src_params : List param_file_t)
    (h : ∀ s ∈ src_params, fs.access_R_OK s.path = false) :
    readable_sources fs src_params = [] := by
  simp only [readable_sources, List.filter_eq_nil_iff]
  intro s hs
  simp [h s hs]

/-- The flags `check_dest` gives for a supported destination. -/
theorem check_dest_supported (d : param_file_t) (h : supported_dest d = true) :
    ∃ f, check_dest d = .ok f ∧ f.dest_exists = d.path_stat_valid ∧
      (f.dest_is_dir || f.dest_is_link_to_dir) = decide (effective_kind d = some .Directory) := by
  unfold supported_dest canonical_path_kind resolved_target_kind at h
  unfold effective_kind canonical_path_kind resolved_target_kind check_dest kind_of_mode
  unfold kind_of_mode at h
  cases hv : d.path_stat_valid <;> cases hd : S_ISDIR d.path_stat.st_mode <;>
    cases hr : S_ISREG d.path_stat.st_mode <;> cases hl : S_ISLNK d.path_stat.st_mode <;>
    cases htv : d.target_stat_valid <;> cases htd : S_ISDIR d.target_stat.st_mode <;>
    cases htr : S_ISREG d.target_stat.st_mode <;> cases htl : S_ISLNK d.target_stat.st_mode <;>
    simp_all

/-- The only messages `check_dest` aborts with. -/
theorem check_dest_error (d : param_file_t) (msg : log_msg)
    (h : check_dest d = .error msg) :
    msg = log_msg.unsupported_filetype d.orig ∨
      msg = log_msg.unsupported_filetype_target d.orig d.target := by
  unfold check_dest at h
  split_ifs at h <;> (injection h with h; subst h; simp)

/-- A destination with an effective kind has a valid stat of its path. -/
theorem effective_kind_exists (d : param_file_t) (k : file_kind)
    (h : effective_kind d = some k) : d.path_stat_valid = true := by
  unfold effective_kind canonical_path_kind at h
  cases hv : d.path_stat_valid <;> simp_all

theorem to_int_of_le (n : Nat) (h : n ≤ INT_MAX) : to_int n = (n : Int) := by
  unfold to_int
  unfold INT_MAX at h
  rw [Nat.mod_eq_of_lt (by omega)]
  push_cast
  omega

theorem to_int_le (n : Nat) : to_int n ≤ (n : Int) := by
  unfold to_int
  have := Nat.mod_le (n + 2147483648) 4294967296
  omega

theorem strncpy_whole (s : cstring) : strncpy s (strlen s + 1) = s ++ [NUL] := by
  unfold strncpy strlen
  rw [List.take_of_length_le (by omega)]
  congr 1
  have : s.length + 1 - s.length = 1 := by omega
  rw [this]
  rfl

/-- What rank 0 enters the first broadcast with is the length it computed. -/
theorem root_sent_len (M : Int) (send : Option cstring) (e : rank_env)
    (a : Option Int) (b : Option buffer) (l : Int)
    (h : (DCOPY_bcast_str_rank M 0 send e a b).sent_len = some l) :
    l = root_length send := by
  rcases e with ⟨e1, e2, e3, e4⟩
  cases send with
  | none =>
    cases e1 <;> cases e2 <;>
      simp [DCOPY_bcast_str_rank, MPI_Bcast, root_length] at h ⊢ <;> omega
  | some s =>
    by_cases hm : to_int (strlen s + 1) > M
    · cases e1 <;> simp [DCOPY_bcast_str_rank, hm] at h
    · by_cases hp : to_int (strlen s + 1) > 0
      · cases e1 <;> cases e2 <;> cases e3 <;> cases e4 <;>
          simp [DCOPY_bcast_str_rank, MPI_Bcast, root_length, hm, hp] at h ⊢ <;> omega
      · cases e1 <;> cases e2 <;>
          simp [DCOPY_bcast_str_rank, MPI_Bcast, root_length, hm, hp] at h ⊢ <;> omega

/-- What rank 0 enters the second broadcast with is its copy of `send`. -/
theorem root_sent_str (M : Int) (send : Option cstring) (e : rank_env)
    (a : Option Int) (b : Option buffer) (buf : buffer)
    (h : (DCOPY_bcast_str_rank M 0 send e a b).sent_str = some buf) :
    ∃ s, send = some s ∧ buf = .bytes (strncpy s (root_length send).toNat) := by
  rcases e with ⟨e1, e2, e3, e4⟩
  cases send with
  | none =>
    cases e1 <;> cases e2 <;>
      simp [DCOPY_bcast_str_rank, MPI_Bcast, root_length] at h
  | some s =>
    by_cases hm : to_int (strlen s + 1) > M
    · cases e1 <;> simp [DCOPY_bcast_str_rank, hm] at h
    · by_cases hp : to_int (strlen s + 1) > 0
      · cases e1 <;> cases e2 <;> cases e3 <;> cases e4 <;>
          simp [DCOPY_bcast_str_rank, MPI_Bcast, root_length, hm, hp] at h ⊢ <;> rw [h]
      · cases e1 <;> cases e2 <;>
          simp [DCOPY_bcast_str_rank, MPI_Bcast, root_length, hm, hp] at h

/-- A call on rank 0 that returns true leaves `NULL` when the length is not
positive, its copy of `send` otherwise. -/
theorem root_returns_true (M : Int) (send : Option cstring) (e : rank_env)
    (a : Option Int) (b : Option buffer) (v : recv_value)
    (h : (DCOPY_bcast_str_rank M 0 send e a b).outcome = .returned true v) :
    (root_length send ≤ 0 ∧ v = .null) ∨
    (root_length send > 0 ∧ ∃ s, send = some s ∧
      v = .allocated (.bytes (strncpy s (root_length send).toNat))) := by
  rcases e with ⟨e1, e2, e3, e4⟩
  cases send with
  | none =>
    cases e1 <;> cases e2 <;>
      simp [DCOPY_bcast_str_rank, MPI_Bcast, root_length] at h ⊢
    rw [h]
  | some s =>
    by_cases hm : to_int (strlen s + 1) > M
    · cases e1 <;> simp [DCOPY_bcast_str_rank, hm] at h
    · by_cases hp : to_int (strlen s + 1) > 0
      · cases e1 <;> cases e2 <;> cases e3 <;> cases e4 <;>
          simp [DCOPY_bcast_str_rank, MPI_Bcast, root_length, hm, hp] at h ⊢
        all_goals exact Or.inr h.symm
      · cases e1 <;> cases e2 <;>
          simp [DCOPY_bcast_str_rank, MPI_Bcast, root_length, hm, hp] at h ⊢
        all_goals exact ⟨by omega, h.symm⟩

/-- A call on another rank that returns true leaves `NULL` when the length it
received is not positive, the bytes it received otherwise. -/
theorem other_returns_true (M : Int) (rank : Nat) (hr : rank ≠ 0) (send : Option cstring)
    (e : rank_env) (a : Option Int) (b : Option buffer) (v : recv_value)
    (h : (DCOPY_bcast_str_rank M rank send e a b).outcome = .returned true v) :
    ∃ l, a = some l ∧
      ((l ≤ 0 ∧ v = .null) ∨ (l > 0 ∧ ∃ buf, b = some buf ∧ v = .allocated buf)) := by
  rcases e with ⟨e1, e2, e3, e4⟩
  cases a with
  | none =>
    cases e1 <;> cases e2 <;> simp [DCOPY_bcast_str_rank, MPI_Bcast, hr] at h
  | some l =>
    refine ⟨l, rfl, ?_⟩
    by_cases hp : l > 0
    · cases b with
      | none =>
        cases e1 <;> cases e2 <;> cases e3 <;> cases e4 <;>
          simp [DCOPY_bcast_str_rank, MPI_Bcast, hr, hp] at h
      | some buf =>
        cases e1 <;> cases e2 <;> cases e3 <;> cases e4 <;>
          simp [DCOPY_bcast_str_rank, MPI_Bcast, hr, hp] at h
        right
        exact ⟨hp, buf, rfl, h.symm⟩
    · cases e1 <;> cases e2 <;>
        simp [DCOPY_bcast_str_rank, MPI_Bcast, hr, hp] at h
      left
      exact ⟨by omega, h.symm⟩

/-- Every call that returns true leaves what the length rank 0 computed
says: `NULL` when it is not positive, the copy rank 0 made otherwise. -/
theorem bcast_returns_true (M : Int) (send : Nat → Option cstring) (env : Nat → rank_env)
    (rank : Nat) (v : recv_value)
    (h : DCOPY_bcast_str M send env rank = .returned true v) :
    (root_length (send 0) ≤ 0 ∧ v = .null) ∨
    (root_length (send 0) > 0 ∧ ∃ s, send 0 = some s ∧
      v = .allocated (.bytes (strncpy s (root_length (send 0)).toNat))) := by
  unfold DCOPY_bcast_str at h
  by_cases hr : rank = 0
  · subst hr
    exact root_returns_true M _ _ _ _ v h
  · obtain ⟨l, hl, hcase⟩ := other_returns_true M rank hr _ _ _ _ v h
    have hlen := root_sent_len M _ _ _ _ l hl
    subst hlen
    rcases hcase with ⟨h1, h2⟩ | ⟨h1, buf, h2, h3⟩
    · exact Or.inl ⟨h1, h2⟩
    · obtain ⟨s, hs, hb⟩ := root_sent_str M _ _ _ _ buf h2
      exact Or.inr ⟨h1, s, hs, by rw [h3, hb]⟩

/-- With nothing failing around it, a call in which rank 0 computes a length
above `M` returns false on rank 0 and waits for the length on the others. -/
theorem bcast_too_long (M : Int) (send : Nat → Option cstring)
    (env : Nat → rank_env) (rank : Nat) (s : cstring) (hs : send 0 = some s)
    (hm : to_int (strlen s + 1) > M)
    (h0 : (env 0).recv_is_null = false) (hn : (env rank).recv_is_null = false)
    (hb : (env rank).bcast_len_ok = true) :
    DCOPY_bcast_str M send env rank =
      if rank = 0 then bcast_outcome.returned false recv_value.untouched
      else bcast_outcome.waits_for_length := by
  have hroot : DCOPY_bcast_str_rank M 0 (send 0) (env 0) none none
      = ⟨.returned false .untouched, none, none⟩ := by
    simp [DCOPY_bcast_str_rank, hs, h0, hm]
  unfold DCOPY_bcast_str
  by_cases hz : rank = 0
  · subst hz
    simp [DCOPY_bcast_str_rank, hs, h0, hm]
  · rw [hroot]
    simp [DCOPY_bcast_str_rank, MPI_Bcast, hz, hn, hb]

/-! ### Paths without separators -/

/-- C9: when no source passes the readability probe (also with no source at
all), the run logs one "Could not read" per source, then "At least one valid
source must be specified." and aborts with nothing enqueued, whatever the
destination is: its type is never looked at. -/
theorem C9_no_readable_source_aborts (fs : filesystem) (dest_param : param_file_t)
    (src_params : List param_file_t)
    (h : ∀ s ∈ src_params, fs.access_R_OK s.path = false) :
    DCOPY_enqueue_work_objects fs dest_param src_params =
      { log := src_params.map (fun s => log_msg.could_not_read s.orig) ++
          [log_msg.no_valid_source],
        enqueued := [],
        ending := ending.aborted EXIT_FAILURE } := by
  rw [enqueue_eq, readable_sources_of_none fs src_params h,
    unreadable_log_of_none fs src_params h]
  simp [DCOPY_abort]

/-- C9 at an unreadable single source and a destination of an unsupported
type (a device), and at no source with a dangling symlink as destination. -/
theorem C9_no_readable_source_aborts_witness :
    seed example_fs ["/a/secret".toList] "/dev/null".toList =
      ⟨[log_msg.could_not_read "/a/secret".toList, log_msg.no_valid_source], [],
        ending.aborted EXIT_FAILURE⟩ ∧
    DCOPY_enqueue_work_objects example_fs (DCOPY_param_set example_fs "/dangling".toList) [] =
      ⟨[log_msg.no_valid_source], [], ending.aborted EXIT_FAILURE⟩ :=
  ⟨C9_no_readable_source_aborts example_fs _ _ (by decide),
   C9_no_readable_source_aborts example_fs _ [] (by decide)⟩

/-- C10: with a readable source, a destination that exists with a kind other
than directory, regular file and symlink makes the run abort with
"Unsupported filetype", and a symlink whose target exists with a kind other
than directory and regular file makes it abort with "Unsupported filetype
orig --> target"; nothing is enqueued, for every number of sources, and the
message "Destination is not a directory" is not the one logged. -/
theorem C10_unsupported_destination_aborts (fs : filesystem) (dest_param : param_file_t)
    (src_params : List param_file_t)
    (hr : ∃ s ∈ src_params, fs.access_R_OK s.path = true) :
    (canonical_path_kind dest_param = some file_kind.Other →
      DCOPY_enqueue_work_objects fs dest_param src_params =
        { log := unreadable_log fs src_params ++
            [log_msg.unsupported_filetype dest_param.orig],
          enqueued := [],
          ending := ending.aborted EXIT_FAILURE }) ∧
    (canonical_path_kind dest_param = some file_kind.Symlink →
      resolved_target_kind dest_param = some file_kind.Other →
      DCOPY_enqueue_work_objects fs dest_param src_params =
        { log := unreadable_log fs src_params ++
            [log_msg.unsupported_filetype_target dest_param.orig dest_param.target],
          enqueued := [],
          ending := ending.aborted EXIT_FAILURE }) := by
  have hpos := readable_length_pos fs src_params hr
  constructor
  · intro hk
    rw [enqueue_eq, if_neg hpos]
    have : check_dest dest_param = .error (log_msg.unsupported_filetype dest_param.orig) := by
      unfold canonical_path_kind kind_of_mode at hk
      unfold check_dest
      cases hv : dest_param.path_stat_valid <;> cases hd : S_ISDIR dest_param.path_stat.st_mode <;>
        cases hg : S_ISREG dest_param.path_stat.st_mode <;>
        cases hl : S_ISLNK dest_param.path_stat.st_mode <;> simp_all
    rw [this]
    simp [DCOPY_abort]
  · intro hk ht
    rw [enqueue_eq, if_neg hpos]
    have : check_dest dest_param =
        .error (log_msg.unsupported_filetype_target dest_param.orig dest_param.target) := by
      unfold canonical_path_kind kind_of_mode at hk
      unfold resolved_target_kind kind_of_mode at ht
      unfold check_dest
      cases hv : dest_param.path_stat_valid <;> cases hd : S_ISDIR dest_param.path_stat.st_mode <;>
        cases hg : S_ISREG dest_param.path_stat.st_mode <;>
        cases hl : S_ISLNK dest_param.path_stat.st_mode <;>
        cases htv : dest_param.target_stat_valid <;>
        cases htd : S_ISDIR dest_param.target_stat.st_mode <;>
        cases htg : S_ISREG dest_param.target_stat.st_mode <;>
        cases htl : S_ISLNK dest_param.target_stat.st_mode <;> simp_all
    rw [this]
    simp [DCOPY_abort]

/-- C10 at two sources (one unreadable) with a device as destination, and at
one source with a symlink to a device as destination. -/
theorem C10_unsupported_destination_aborts_witness :
    seed example_fs ["/a/b.txt".toList, "/a/secret".toList] "/dev/null".toList =
      ⟨[log_msg.could_not_read "/a/secret".toList,
        log_msg.unsupported_filetype "/dev/null".toList], [],
        ending.aborted EXIT_FAILURE⟩ ∧
    seed example_fs ["/a/b.txt".toList] "/lnull".toList =
      ⟨[log_msg.unsupported_filetype_target "/lnull".toList (some "/dev/null".toList)], [],
        ending.aborted EXIT_FAILURE⟩ :=
  ⟨(C10_unsupported_destination_aborts example_fs
      (DCOPY_param_set example_fs "/dev/null".toList)
      [DCOPY_param_set example_fs "/a/b.txt".toList,
       DCOPY_param_set example_fs "/a/secret".toList] (by decide)).1 (by decide),
   (C10_unsupported_destination_aborts example_fs
      (DCOPY_param_set example_fs "/lnull".toList)
      [DCOPY_param_set example_fs "/a/b.txt".toList] (by decide)).2 (by decide) (by decide)⟩

/-- C4: with more than one source the run never infers a file destination and
never enqueues an operation without a basename; and when a source is readable
and the destination is of a supported kind and not dangling, the run copies
into the directory (one operation with basename per source, then returns)
if the effective kind of the destination is Directory, and aborts with
"Destination is not a directory" and nothing enqueued in every other case. -/
theorem C4_many_sources_need_directory (fs : filesystem) (dest_param : param_file_t)
    (src_params : List param_file_t) (hn : src_params.length > 1) :
    (log_msg.infered_file ∉ (DCOPY_enqueue_work_objects fs dest_param src_params).log ∧
      ∀ op ∈ (DCOPY_enqueue_work_objects fs dest_param src_params).enqueued,
        op.src_path_basename ≠ none) ∧
    ((∃ s ∈ src_params, fs.access_R_OK s.path = true) → supported_dest dest_param = true →
      (effective_kind dest_param = some file_kind.Directory →
        DCOPY_enqueue_work_objects fs dest_param src_params =
          { log := unreadable_log fs src_params ++ log_msg.infered_directory ::
              src_params.map (fun s => log_msg.enqueueing_source s.path),
            enqueued := src_params.map operation_into_dir,
            ending := ending.returned }) ∧
      (effective_kind dest_param ≠ some file_kind.Directory →
        DCOPY_enqueue_work_objects fs dest_param src_params =
          { log := unreadable_log fs src_params ++
              [log_msg.not_a_directory dest_param.orig],
            enqueued := [],
            ending := ending.aborted EXIT_FAILURE })) := by
  have hn2 : decide (src_params.length > 1) = true := by simpa using hn
  constructor
  · rw [enqueue_eq, hn2]
    have hlog : log_msg.infered_file ∉ unreadable_log fs src_params := by
      simp [unreadable_log]
    by_cases hlt : (readable_sources fs src_params).length < 1
    · rw [if_pos hlt]
      simp [DCOPY_abort, hlog]
    · rw [if_neg hlt]
      cases hcd : check_dest dest_param with
      | error msg =>
        rcases check_dest_error dest_param msg hcd with h | h <;>
          simp [DCOPY_abort, hlog, h]
      | ok f =>
        by_cases hc : (!f.dest_exists || (!f.dest_is_dir && !f.dest_is_link_to_dir)) = true
        · simp [hc, DCOPY_abort, hlog]
        · simp only [Bool.true_and, hc, Bool.true_or, if_true, if_false]
          simp [hlog, operation_into_dir]
  · intro hr hs
    have hpos := readable_length_pos fs src_params hr
    obtain ⟨f, hf, hex, hdir⟩ := check_dest_supported dest_param hs
    rw [enqueue_eq, if_neg hpos, hf, hn2]
    constructor
    · intro hk
      have hv := effective_kind_exists dest_param _ hk
      have hd : (f.dest_is_dir || f.dest_is_link_to_dir) = true := by simp [hdir, hk]
      have hd2 : (!f.dest_is_dir && !f.dest_is_link_to_dir) = false := by
        cases h1 : f.dest_is_dir <;> cases h2 : f.dest_is_link_to_dir <;> simp_all
      simp [hex, hv, hd2]
    · intro hk
      have hd : (f.dest_is_dir || f.dest_is_link_to_dir) = false := by simp [hdir, hk]
      have hd2 : (!f.dest_is_dir && !f.dest_is_link_to_dir) = true := by
        cases h1 : f.dest_is_dir <;> cases h2 : f.dest_is_link_to_dir <;> simp_all
      simp [hd2, DCOPY_abort]

/-- C4 at scenario C (two sources, the destination `/e.txt` is a regular
file: abort, nothing enqueued) and at two sources with the symlink `/ld` to a
directory as destination (two operations). -/
theorem C4_many_sources_need_directory_witness :
    seed example_fs ["/a/b.txt".toList, "/a/c/".toList] "/e.txt".toList =
      ⟨[log_msg.not_a_directory "/e.txt".toList], [], ending.aborted EXIT_FAILURE⟩ ∧
    (seed example_fs ["/a/b.txt".toList, "/a/c/".toList] "/ld".toList).enqueued =
      [⟨.TREEWALK, 0, "/a/b.txt".toList, 8, some "b.txt".toList, 0⟩,
       ⟨.TREEWALK, 0, "/a/c".toList, 4, some "c".toList, 0⟩] :=
  ⟨((C4_many_sources_need_directory example_fs (DCOPY_param_set example_fs "/e.txt".toList)
      [DCOPY_param_set example_fs "/a/b.txt".toList, DCOPY_param_set example_fs "/a/c/".toList]
      (by decide)).2 (by decide) (by decide)).2 (by decide),
   congrArg run.enqueued
    (((C4_many_sources_need_directory example_fs (DCOPY_param_set example_fs "/ld".toList)
      [DCOPY_param_set example_fs "/a/b.txt".toList, DCOPY_param_set example_fs "/a/c/".toList]
      (by decide)).2 (by decide) (by decide)).1 (by decide))⟩

/-- C8: with exactly one source, readable, and a destination of a supported
kind that is not dangling, the run returns with exactly one operation, built
from source 0: with the basename and the message "Infered that the
destination is a directory" when the effective kind of the destination is
Directory, without basename and with "Infered that the destination is a file"
otherwise (destination absent, regular file, symlink to a regular file). -/
theorem C8_single_source_verdict (fs : filesystem) (dest_param : param_file_t)
    (s : param_file_t) (hr : fs.access_R_OK s.path = true)
    (hs : supported_dest dest_param = true) :
    (effective_kind dest_param = some file_kind.Directory →
      DCOPY_enqueue_work_objects fs dest_param [s] =
        { log := [log_msg.infered_directory, log_msg.enqueueing_source s.path],
          enqueued := [operation_into_dir s],
          ending := ending.returned }) ∧
    (effective_kind dest_param ≠ some file_kind.Directory →
      DCOPY_enqueue_work_objects fs dest_param [s] =
        { log := [log_msg.infered_file, log_msg.enqueueing_single_source s.path],
          enqueued := [operation_to_file s],
          ending := ending.returned }) := by
  have hall : ∀ x ∈ [s], fs.access_R_OK x.path = true := by simpa using hr
  have hpos := readable_length_pos fs [s] ⟨s, by simp, hr⟩
  obtain ⟨f, hf, _, hdir⟩ := check_dest_supported dest_param hs
  rw [enqueue_eq, if_neg hpos, hf, unreadable_log_of_all fs [s] hall]
  constructor
  · intro hk
    have hd : (f.dest_is_dir || f.dest_is_link_to_dir) = true := by simp [hdir, hk]
    simp [hd, Bool.or_assoc]
  · intro hk
    have hd : (f.dest_is_dir || f.dest_is_link_to_dir) = false := by simp [hdir, hk]
    simp [hd, Bool.or_assoc]

/-- C8 at scenario A (one source `/a/b.txt`, the destination `/c.txt` does
not exist: one operation without basename) and at scenario E (the destination
`/ld` is a symlink to a directory: one operation with basename). -/
theorem C8_single_source_verdict_witness :
    seed example_fs ["/a/b.txt".toList] "/c.txt".toList =
      ⟨[log_msg.infered_file, log_msg.enqueueing_single_source "/a/b.txt".toList],
        [⟨.TREEWALK, 0, "/a/b.txt".toList, 8, none, 0⟩], ending.returned⟩ ∧
    canonical_path_kind (DCOPY_param_set example_fs "/ld".toList) = some file_kind.Symlink ∧
    seed example_fs ["/a/b.txt".toList] "/ld".toList =
      ⟨[log_msg.infered_directory, log_msg.enqueueing_source "/a/b.txt".toList],
        [⟨.TREEWALK, 0, "/a/b.txt".toList, 8, some "b.txt".toList, 0⟩], ending.returned⟩ :=
  ⟨(C8_single_source_verdict example_fs (DCOPY_param_set example_fs "/c.txt".toList)
      (DCOPY_param_set example_fs "/a/b.txt".toList) (by decide) (by decide)).2 (by decide),
   by decide,
   (C8_single_source_verdict example_fs (DCOPY_param_set example_fs "/ld".toList)
      (DCOPY_param_set example_fs "/a/b.txt".toList) (by decide) (by decide)).1 (by decide)⟩

/-- C1, the code at the failing input: with the dangling symlink `/dangling`
as destination and the single readable source `/a/b.txt`, the run does not
abort with "Unsupported filetype"; it infers a file destination, enqueues the
source without basename and returns. With the two readable sources `/a/b.txt`
and `/a/c/` it aborts, but with "Destination is not a directory". -/
theorem C1_dangling_symlink_is_enqueued :
    dangling_symlink (DCOPY_param_set example_fs "/dangling".toList) = true ∧
    example_fs.access_R_OK (DCOPY_param_set example_fs "/a/b.txt".toList).path = true ∧
    seed example_fs ["/a/b.txt".toList] "/dangling".toList =
      ⟨[log_msg.infered_file, log_msg.enqueueing_single_source "/a/b.txt".toList],
        [⟨.TREEWALK, 0, "/a/b.txt".toList, 8, none, 0⟩], ending.returned⟩ ∧
    seed example_fs ["/a/b.txt".toList, "/a/c/".toList] "/dangling".toList =
      ⟨[log_msg.not_a_directory "/dangling".toList], [], ending.aborted EXIT_FAILURE⟩ := by
  decide

/-- C2, the code at the failing input: the sources `/a/b.txt` (readable) and
`/a/secret` (not readable) into the directory `/d` give two operations, the
second one on the unreadable source, although only one source is readable. -/
theorem C2_unreadable_source_is_enqueued :
    (readable_sources example_fs
      [DCOPY_param_set example_fs "/a/b.txt".toList,
       DCOPY_param_set example_fs "/a/secret".toList]).map (fun s => s.path)
      = ["/a/b.txt".toList] ∧
    seed example_fs ["/a/b.txt".toList, "/a/secret".toList] "/d".toList =
      ⟨[log_msg.could_not_read "/a/secret".toList, log_msg.infered_directory,
        log_msg.enqueueing_source "/a/b.txt".toList,
        log_msg.enqueueing_source "/a/secret".toList],
       [⟨.TREEWALK, 0, "/a/b.txt".toList, 8, some "b.txt".toList, 0⟩,
        ⟨.TREEWALK, 0, "/a/secret".toList, 9, some "secret".toList, 0⟩],
       ending.returned⟩ := by
  decide

/-- C6: every call that returns true leaves in `*recv`, on rank 0 and on every
other rank, a buffer with exactly the characters of the string of rank 0 and
its terminator when that string is present (one NUL for the empty string),
and `NULL` when it is absent. The string is one whose length fits the `int`
the length travels in, `strlen(send) + 1 <= INT_MAX`: the function is static
and its caller passes a `char[PATH_MAX]` buffer. -/
theorem C6_received_value (M : Int) (send : Nat → Option cstring) (env : Nat → rank_env)
    (rank : Nat) (v : recv_value)
    (hfit : ∀ s, send 0 = some s → strlen s + 1 ≤ INT_MAX)
    (hret : DCOPY_bcast_str M send env rank = bcast_outcome.returned true v) :
    v = match send 0 with
      | none => recv_value.null
      | some s => recv_value.allocated (buffer.bytes (s ++ [NUL])) := by
  rcases bcast_returns_true M send env rank v hret with ⟨hlen, hv⟩ | ⟨hlen, s, hs, hv⟩
  · cases hs : send 0 with
    | none => exact hv
    | some s =>
      have := to_int_of_le _ (hfit s hs)
      rw [hs] at hlen
      simp only [root_length, this] at hlen
      omega
  · rw [hs] at hv ⊢
    have := to_int_of_le _ (hfit s hs)
    simp only [root_length, this, Int.toNat_ofNat, strncpy_whole] at hv
    exact hv

/-- C6 on rank 3: the string `/d`, the empty string and `NULL` of rank 0 are
received as `/d`, as the empty string and as `NULL`. -/
theorem C6_received_value_witness :
    (DCOPY_bcast_str CIRCLE_MAX_STRING_LEN (send_from_root (some "/d".toList)) all_ok 3
        = bcast_outcome.returned true (recv_value.allocated (buffer.bytes ['/', 'd', NUL])) ∧
      recv_value.allocated (buffer.bytes ['/', 'd', NUL]) = recv_value.allocated (buffer.bytes ("/d".toList ++ [NUL]))) ∧
    (DCOPY_bcast_str CIRCLE_MAX_STRING_LEN (send_from_root (some [])) all_ok 3
        = bcast_outcome.returned true (recv_value.allocated (buffer.bytes [NUL])) ∧
      recv_value.allocated (buffer.bytes [NUL]) = recv_value.allocated (buffer.bytes ([] ++ [NUL]))) ∧
    (DCOPY_bcast_str CIRCLE_MAX_STRING_LEN (send_from_root none) all_ok 3
        = bcast_outcome.returned true recv_value.null ∧
      recv_value.null = recv_value.null) :=
  ⟨⟨by decide, C6_received_value CIRCLE_MAX_STRING_LEN (send_from_root (some "/d".toList))
      all_ok 3 _ (by intro s h; cases h; decide) (by decide)⟩,
   ⟨by decide, C6_received_value CIRCLE_MAX_STRING_LEN (send_from_root (some []))
      all_ok 3 _ (by intro s h; cases h; decide) (by decide)⟩,
   ⟨by decide, C6_received_value CIRCLE_MAX_STRING_LEN (send_from_root none)
      all_ok 3 _ (by intro s h; cases h) (by decide)⟩⟩

/-- C7 fails: with a string of 4096 characters on rank 0 (4097 bytes with the
terminator, more than `CIRCLE_MAX_STRING_LEN`), rank 0 returns false but
rank 1 does not: it waits in the broadcast of the length. -/
theorem C7_counterexample :
    (strlen string_4096 + 1 : Int) > CIRCLE_MAX_STRING_LEN ∧
    DCOPY_bcast_str CIRCLE_MAX_STRING_LEN (send_from_root (some string_4096)) all_ok 0
      = bcast_outcome.returned false recv_value.untouched ∧
    DCOPY_bcast_str CIRCLE_MAX_STRING_LEN (send_from_root (some string_4096)) all_ok 1
      = bcast_outcome.waits_for_length := by
  have hl : strlen string_4096 = 4096 := by
    unfold strlen string_4096
    rw [List.length_replicate]
  have hm : to_int (strlen string_4096 + 1) > CIRCLE_MAX_STRING_LEN := by
    rw [hl]; decide
  refine ⟨by rw [hl]; decide, ?_, ?_⟩
  · exact bcast_too_long _ _ _ 0 string_4096 rfl hm rfl rfl rfl
  · exact bcast_too_long _ _ _ 1 string_4096 rfl hm rfl rfl rfl

/-- C7, amended: when the string of rank 0 has `CIRCLE_MAX_STRING_LEN <
strlen(send) + 1 <= INT_MAX`, the call returns false on rank 0, before the
length is broadcast, and on every other rank (with a valid `recv` and a
working `MPI_Bcast`) it does not return: the rank makes no size check and
waits in the broadcast of the length; and when `strlen(send) + 1 <=
CIRCLE_MAX_STRING_LEN`, rank 0 passes the size check and enters the broadcast
of the length, and its call returns true if no `MPI_Bcast` and no `malloc`
fails. -/
theorem C7_size_check (M : Int) (send : Nat → Option cstring) (env : Nat → rank_env)
    (s : cstring) (hs : send 0 = some s) (h0 : (env 0).recv_is_null = false) :
    (M < (strlen s + 1 : Nat) → strlen s + 1 ≤ INT_MAX →
      DCOPY_bcast_str M send env 0 = bcast_outcome.returned false recv_value.untouched ∧
      ∀ rank, rank ≠ 0 → (env rank).recv_is_null = false → (env rank).bcast_len_ok = true →
        DCOPY_bcast_str M send env rank = bcast_outcome.waits_for_length) ∧
    (((strlen s + 1 : Nat) : Int) ≤ M →
      (DCOPY_bcast_str_rank M 0 (send 0) (env 0) none none).sent_len
        = some (to_int (strlen s + 1)) ∧
      ((env 0).bcast_len_ok = true → (env 0).malloc_ok = true → (env 0).bcast_str_ok = true →
        ∃ v, DCOPY_bcast_str M send env 0 = bcast_outcome.returned true v)) := by
  constructor
  · intro hbig hfit
    have hgt : to_int (strlen s + 1) > M := by
      rw [to_int_of_le _ hfit]; exact hbig
    constructor
    · simp [DCOPY_bcast_str, DCOPY_bcast_str_rank, hs, h0, hgt]
    · intro rank hr hnull hok
      rw [bcast_too_long M send env rank s hs hgt h0 hnull hok, if_neg hr]
  · intro hle
    have hng : ¬ to_int (strlen s + 1) > M := by
      have := to_int_le (strlen s + 1)
      omega
    rcases he : env 0 with ⟨e1, e2, e3, e4⟩
    rw [he] at h0
    simp only at h0
    subst h0
    constructor
    · by_cases hp : to_int (strlen s + 1) > 0
      · cases e2 <;> cases e3 <;> cases e4 <;>
          simp [DCOPY_bcast_str_rank, MPI_Bcast, hs, hng, hp]
      · cases e2 <;> simp [DCOPY_bcast_str_rank, MPI_Bcast, hs, hng, hp]
    · intro h2 h3 h4
      simp only at h2 h3 h4
      subst h2; subst h3; subst h4
      by_cases hp : to_int (strlen s + 1) > 0
      · simp [DCOPY_bcast_str, DCOPY_bcast_str_rank, MPI_Bcast, hs, he, hng, hp]
      · simp [DCOPY_bcast_str, DCOPY_bcast_str_rank, MPI_Bcast, hs, he, hng, hp]

/-- C7, amended, at a string of 4096 characters (rank 0 returns false, rank 2
waits) and at the string `/d` (rank 0 enters the broadcast with length 3). -/
theorem C7_size_check_witness :
    (DCOPY_bcast_str CIRCLE_MAX_STRING_LEN (send_from_root (some string_4096)) all_ok 0
        = bcast_outcome.returned false recv_value.untouched ∧
      DCOPY_bcast_str CIRCLE_MAX_STRING_LEN (send_from_root (some string_4096)) all_ok 2
        = bcast_outcome.waits_for_length) ∧
    (DCOPY_bcast_str_rank CIRCLE_MAX_STRING_LEN 0 (send_from_root (some "/d".toList) 0)
        (all_ok 0) none none).sent_len = some 3 :=
  have hl : strlen string_4096 = 4096 := by
    unfold strlen string_4096
    rw [List.length_replicate]
  ⟨⟨((C7_size_check CIRCLE_MAX_STRING_LEN (send_from_root (some string_4096)) all_ok
        string_4096 rfl rfl).1 (by rw [hl]; decide) (by rw [hl]; decide)).1,
    ((C7_size_check CIRCLE_MAX_STRING_LEN (send_from_root (some string_4096)) all_ok
        string_4096 rfl rfl).1 (by rw [hl]; decide) (by rw [hl]; decide)).2 2
        (by decide) rfl rfl⟩,
   ((C7_size_check CIRCLE_MAX_STRING_LEN (send_from_root (some "/d".toList)) all_ok
      "/d".toList rfl rfl).2 (by decide)).1⟩

end Dcp
